import Mathlib

/-!
Verification of the moltworker repository: a Cloudflare Worker that supervises
and proxies a long-lived gateway process, plus the container startup script
that restores configuration from an R2 backup and projects environment
variables into the gateway's JSON config.

Shallow embedding conventions:
  - JavaScript / shell optional string values are `Option String`; JS
    truthiness of such a value is `truthy` (undefined and the empty string
    are falsy).
  - The container filesystem state relevant to the startup script's restore
    phase is the structure `BackupFs`; the script's decisions are pure
    functions of it.
-/

namespace Moltworker

/-- JavaScript truthiness of an optional string value: `undefined` and the
empty string are falsy, every other string is truthy. -/
def truthy : Option String → Bool
  | none => false
  | some s => !(s == "")

/-- JavaScript `a || b` on optional string values: yields `a` when `a` is
truthy, otherwise `b`. -/
def jsOr (a b : Option String) : Option String :=
  if truthy a then a else b

/-- Boolean test that the first character list is a prefix of the second. -/
def charsPrefix : List Char → List Char → Bool
  | [], _ => true
  | _ :: _, [] => false
  | a :: as, b :: bs => a == b && charsPrefix as bs

/-- Boolean test that the first character list occurs contiguously inside the
second. -/
def charsInfix (needle hay : List Char) : Bool :=
  match hay with
  | [] => charsPrefix needle []
  | _ :: rest => charsPrefix needle hay || charsInfix needle rest

/-- JavaScript `s.includes(sub)`: substring containment. -/
def jsIncludes (s sub : String) : Bool :=
  charsInfix sub.data s.data

/-- Lowercasing a string character by character (the effect of JavaScript
`toLowerCase` on the ASCII header values compared here), written over the
character list so that it evaluates structurally. -/
def jsToLowerCase (s : String) : String :=
  String.mk (s.data.map Char.toLower)

/-- The worker computes `c.req.header('Accept')?.includes('text/html')` and
branches on its truthiness; an absent header is falsy. -/
def acceptsHtmlHeader : Option String → Bool
  | none => false
  | some a => jsIncludes a "text/html"

/-! ## Startup script: restore-from-R2 decision (src/unnamed/part_000)

The script's restore phase reads only these facts about the filesystem:
whether `$BACKUP_DIR/clawdbot/clawdbot.json` exists, whether the
`$BACKUP_DIR/clawdbot` and `$BACKUP_DIR/skills` directories exist and the
latter is non-empty (`ls -A`), whether the local `$CONFIG_FILE` exists, and
the contents of the two `.last-sync` marker files. Marker contents are
modelled as integers (the shell comparison `[ "$R2_TIME" -gt "$LOCAL_TIME" ]`
is an integer comparison; a failed comparison is treated as false by the
script's `2>/dev/null` guard and falls through to `return 1`). -/

/-- Filesystem state observed by the startup script's restore phase. -/
structure BackupFs where
  /-- `$BACKUP_DIR/clawdbot/clawdbot.json` exists (the remote backup probe). -/
  r2ConfigJsonFile : Bool
  /-- `$BACKUP_DIR/clawdbot` directory exists. -/
  r2ConfigDir : Bool
  /-- `$BACKUP_DIR/skills` directory exists. -/
  r2SkillsDir : Bool
  /-- `ls -A $BACKUP_DIR/skills` produces non-empty output. -/
  r2SkillsDirNonEmpty : Bool
  /-- Local `$CONFIG_FILE` (`/root/.clawdbot/clawdbot.json`) exists. -/
  localConfigFile : Bool
  /-- Contents of `$BACKUP_DIR/.last-sync`, when that file exists. -/
  r2SyncMarker : Option Int
  /-- Contents of `$CONFIG_DIR/.last-sync`, when that file exists. -/
  localSyncMarker : Option Int

/-- The startup script's `should_restore_from_r2` shell function: no remote
`clawdbot.json` means no restore; no local config means restore; otherwise
restore exactly when both `.last-sync` markers exist and the remote one is
strictly greater. -/
def should_restore_from_r2 (fs : BackupFs) : Bool :=
  if !fs.r2ConfigJsonFile then
    false
  else if !fs.localConfigFile then
    true
  else
    match fs.r2SyncMarker, fs.localSyncMarker with
    | some r2Time, some localTime => decide (r2Time > localTime)
    | _, _ => false

/-- Copy actions performed by the startup script's restore branch. -/
structure RestoreActions where
  /-- The script ran `cp -r $BACKUP_DIR/clawdbot/* $CONFIG_DIR/`. -/
  configCopied : Bool
  /-- The script ran `cp -r $BACKUP_DIR/skills/* $CONFIG_DIR/skills/`. -/
  skillsCopied : Bool
deriving DecidableEq, Repr

/-- The startup script's restore block: when `should_restore_from_r2`
succeeds, the config tree is copied if the remote `clawdbot` directory
exists, and the skills tree is copied if the remote `skills` directory
exists and is non-empty; otherwise nothing is copied. -/
def restoreFromR2 (fs : BackupFs) : RestoreActions :=
  if should_restore_from_r2 fs then
    { configCopied := fs.r2ConfigDir
      skillsCopied := fs.r2SkillsDir && fs.r2SkillsDirNonEmpty }
  else
    { configCopied := false, skillsCopied := false }

/-! ## Startup script: environment-to-config projection (src/unnamed/part_000)

The node step of the startup script overlays environment values onto the
JSON config. The claims concern its model-provider selection, which reads
these environment variables and the previously persisted
`models.providers` entries. -/

/-- Environment variables read by the node config-projection step's provider
selection. -/
structure NodeEnv where
  /-- `CLOUDFLARE_AI_GATEWAY_ACCOUNT_ID`. -/
  cloudflareAiGatewayAccountId : Option String
  /-- `CF_ACCOUNT_ID`. -/
  cfAccountId : Option String
  /-- `CLOUDFLARE_AI_GATEWAY_GATEWAY_ID`. -/
  cloudflareAiGatewayGatewayId : Option String
  /-- `CLOUDFLARE_AI_GATEWAY_API_KEY`. -/
  cloudflareAiGatewayApiKey : Option String
  /-- `AI_GATEWAY_API_KEY`. -/
  aiGatewayApiKey : Option String
  /-- `CF_AIG_AUTHORIZATION`. -/
  cfAigAuthorization : Option String
  /-- `ANTHROPIC_API_KEY`. -/
  anthropicApiKey : Option String
  /-- `DEFAULT_MODEL`. -/
  defaultModel : Option String

/-- The persisted `models.providers['cloudflare-ai-gateway']` entry written
by the native branch of the projection. -/
structure NativeProviderEntry where
  accountId : String
  gatewayId : String
  apiKey : String
  /-- The `cf-aig-authorization` header value, when `CF_AIG_AUTHORIZATION`
  is set. -/
  aigAuthorizationHeader : Option String
deriving DecidableEq, Repr

/-- The `models.providers` portion of the persisted config: whether the
legacy `anthropic` and `openai` entries are present, and the native
`cloudflare-ai-gateway` entry. -/
structure ModelsProviders where
  anthropic : Bool
  openai : Bool
  cloudflareAiGateway : Option NativeProviderEntry
deriving DecidableEq, Repr

/-- The outputs of the projection step relevant to provider selection: the
persisted `models.providers` map and `agents.defaults.model.primary`. -/
structure ProjectionResult where
  providers : ModelsProviders
  primaryModel : String
deriving DecidableEq, Repr

/-- The script prefixes the `CF_AIG_AUTHORIZATION` token with `Bearer `
unless it already starts with it. -/
def bearerHeaderValue (tok : String) : String :=
  if tok.startsWith "Bearer " then tok else "Bearer " ++ tok

/-- Provider selection of the startup script's node step: with a truthy
account id (`CLOUDFLARE_AI_GATEWAY_ACCOUNT_ID || CF_ACCOUNT_ID`) and a truthy
api key (`CLOUDFLARE_AI_GATEWAY_API_KEY || AI_GATEWAY_API_KEY`), the legacy
`anthropic` and `openai` provider entries are deleted and the native
`cloudflare-ai-gateway` entry is written; otherwise with a truthy
`ANTHROPIC_API_KEY` the direct Anthropic primary model is chosen; otherwise
the built-in default primary model is chosen. In the two fallback branches
the persisted provider entries are left untouched. -/
def projectModelProviders (env : NodeEnv) (cfg : ModelsProviders) :
    ProjectionResult :=
  let accountId := jsOr env.cloudflareAiGatewayAccountId env.cfAccountId
  let gatewayId := jsOr env.cloudflareAiGatewayGatewayId (some "moltbot-gateway")
  let apiKey := jsOr env.cloudflareAiGatewayApiKey env.aiGatewayApiKey
  if truthy accountId && truthy apiKey then
    { providers :=
        { anthropic := false
          openai := false
          cloudflareAiGateway := some
            { accountId := accountId.getD ""
              gatewayId := gatewayId.getD ""
              apiKey := apiKey.getD ""
              aigAuthorizationHeader :=
                if truthy env.cfAigAuthorization then
                  some (bearerHeaderValue (env.cfAigAuthorization.getD ""))
                else none } }
      primaryModel :=
        (jsOr env.defaultModel
          (some "cloudflare-ai-gateway/google-ai-studio/gemini-2.5-flash")).getD "" }
  else if truthy env.anthropicApiKey then
    { providers := cfg, primaryModel := "anthropic/claude-opus-4-5-20251101" }
  else
    { providers := cfg, primaryModel := "anthropic/claude-opus-4-5" }


/-- A sample environment for exercising the native provider branch of the
projection on concrete inputs. -/
def sampleNativeNodeEnv : NodeEnv :=
  { cloudflareAiGatewayAccountId := some "acct"
    cfAccountId := none
    cloudflareAiGatewayGatewayId := none
    cloudflareAiGatewayApiKey := none
    aiGatewayApiKey := some "key"
    cfAigAuthorization := none
    anthropicApiKey := some "direct"
    defaultModel := none }

/-- A sample persisted provider map holding both legacy entries. -/
def sampleLegacyProviders : ModelsProviders :=
  { anthropic := true, openai := true, cloudflareAiGateway := none }

/-! ## Worker: environment validation middleware (src/src/index.ts 63-89, 159-193) -/

/-- Worker environment fields read by `validateRequiredEnv` and the
validation middleware. -/
structure WorkerEnv where
  /-- `MOLTBOT_GATEWAY_TOKEN`. -/
  moltbotGatewayToken : Option String
  /-- `CF_ACCESS_TEAM_DOMAIN`. -/
  cfAccessTeamDomain : Option String
  /-- `CF_ACCESS_AUD`. -/
  cfAccessAud : Option String
  /-- `CF_ACCOUNT_ID`. -/
  cfAccountId : Option String
  /-- `AI_GATEWAY_ID`. -/
  aiGatewayId : Option String
  /-- `AI_GATEWAY_API_KEY`. -/
  aiGatewayApiKey : Option String
  /-- `AI_GATEWAY_BASE_URL`. -/
  aiGatewayBaseUrl : Option String
  /-- `ANTHROPIC_API_KEY`. -/
  anthropicApiKey : Option String
  /-- `DEV_MODE`. -/
  devMode : Option String

/-- The message pushed by `validateRequiredEnv` when no AI provider
configuration is present. -/
def aiProviderMissingMessage : String :=
  "AI provider configuration: Set CF_ACCOUNT_ID + AI_GATEWAY_API_KEY (recommended), or AI_GATEWAY_BASE_URL + AI_GATEWAY_API_KEY (legacy), or ANTHROPIC_API_KEY (direct)"

/-- The worker's `validateRequiredEnv`: collects the names of unset required
settings, in source order, ending with a combined AI-provider entry when
none of the three provider configurations is available. -/
def validateRequiredEnv (env : WorkerEnv) : List String :=
  (if truthy env.moltbotGatewayToken then [] else ["MOLTBOT_GATEWAY_TOKEN"]) ++
  (if truthy env.cfAccessTeamDomain then [] else ["CF_ACCESS_TEAM_DOMAIN"]) ++
  (if truthy env.cfAccessAud then [] else ["CF_ACCESS_AUD"]) ++
  (let hasNativeAIGateway :=
      truthy env.cfAccountId &&
        (truthy env.aiGatewayId || truthy env.aiGatewayApiKey)
   let hasLegacyAIGateway :=
      truthy env.aiGatewayApiKey && truthy env.aiGatewayBaseUrl
   let hasDirectAnthropic := truthy env.anthropicApiKey
   if hasNativeAIGateway || hasLegacyAIGateway || hasDirectAnthropic then []
   else [aiProviderMissingMessage])

/-- Body of a response produced by the validation middleware. The HTML error
page is the `config-error.html` asset (not part of the core sources) with
the comma-joined missing list substituted for its placeholder, so it is
modelled by that substituted string. -/
inductive ConfigErrorBody where
  /-- The rendered HTML error page, keyed by the substituted missing list. -/
  | htmlErrorPage (missingJoined : String)
  /-- The JSON error body with its four fields. -/
  | jsonError (error message : String) (missing : List String) (hint : String)
deriving DecidableEq, Repr

/-- Outcome of the validation middleware: fall through to the next handler,
or respond immediately with a status and body. -/
inductive MiddlewareResult where
  | pass
  | respond (status : Nat) (body : ConfigErrorBody)
deriving DecidableEq, Repr

/-- The worker's validation middleware (src/src/index.ts 159-193): skip for
`/debug` paths and in dev mode; otherwise respond 503 with an HTML page or a
JSON body, chosen by whether `Accept` includes `text/html`, whenever any
required setting is missing. -/
def envValidationMiddleware (env : WorkerEnv) (path : String)
    (acceptHeader : Option String) : MiddlewareResult :=
  if path.startsWith "/debug" then .pass
  else if env.devMode == some "true" then .pass
  else
    let missingVars := validateRequiredEnv env
    if missingVars.isEmpty then .pass
    else if acceptsHtmlHeader acceptHeader then
      .respond 503 (.htmlErrorPage (String.intercalate ", " missingVars))
    else
      .respond 503 (.jsonError "Configuration error"
        "Required environment variables are not configured" missingVars
        "Set these using: wrangler secret put <VARIABLE_NAME>")

/-! ## Worker: catch-all proxy handler (src/src/index.ts 226-370)

The readiness probe `findExistingMoltbotProcess` and the supervisor
`ensureMoltbotGateway` live in the gateway module, whose implementation is
outside the core sources; the handler is modelled as a function of the
probe's observation (the status string of the found process, if any) and of
the awaited supervisor outcome, emitting the ordered list of effects the
handler performs. -/

/-- The handler's readiness test: a process was found and its status is the
string `running` (`existingProcess !== null && existingProcess.status ===
'running'`). -/
def gatewayReadyProbe : Option String → Bool
  | some status => status == "running"
  | none => false

/-- The handler's WebSocket test: the `Upgrade` header, lowercased, equals
`websocket`. -/
def isWebSocketUpgrade (upgradeHeader : Option String) : Bool :=
  (upgradeHeader.map jsToLowerCase) == some "websocket"

/-- Responses the catch-all handler can produce (the WebSocket relay and the
HTTP forward are modelled separately). -/
inductive ProxyResponseKind where
  /-- The loading placeholder page (the `loading.html` asset), status 200. -/
  | loadingPage
  /-- Startup failure as an HTML error page with the failure message, 500. -/
  | startErrorHtml (message : String)
  /-- Startup failure as a JSON body with details and hint, 500. -/
  | startErrorJson (message : String) (hint : String)
  /-- The 101 response carrying the relayed WebSocket pair. -/
  | wsRelay
  /-- The forwarded HTTP response. -/
  | forwarded
deriving DecidableEq, Repr

/-- Effects of one run of the catch-all handler, in order. -/
inductive HandlerAction where
  /-- `c.executionCtx.waitUntil(ensureMoltbotGateway(...).catch(log))`: a
  background start whose failure is logged, never surfaced. -/
  | scheduleBackgroundStart (failureLogged : Bool)
  /-- `await ensureMoltbotGateway(sandbox, c.env)` on the request path. -/
  | awaitGatewayStart
  /-- Returning the response to the caller. -/
  | respond (r : ProxyResponseKind)
deriving DecidableEq, Repr

/-- The catch-all proxy handler (src/src/index.ts 226-370) as its ordered
effect list. `procStatus` is the probe observation, `startResult` the
outcome the awaited `ensureMoltbotGateway` would produce on this run. -/
def catchAllHandler (env : WorkerEnv) (procStatus : Option String)
    (upgradeHeader : Option String) (acceptHeader : Option String)
    (startResult : Except String Unit) : List HandlerAction :=
  let isGatewayReady := gatewayReadyProbe procStatus
  let isWebSocketRequest := isWebSocketUpgrade upgradeHeader
  let acceptsHtml := acceptsHtmlHeader acceptHeader
  if !isGatewayReady && !isWebSocketRequest && acceptsHtml then
    [.scheduleBackgroundStart true, .respond .loadingPage]
  else
    .awaitGatewayStart ::
      (match startResult with
       | .error errorMessage =>
          let hasAnyApiKey := truthy env.aiGatewayApiKey || truthy env.anthropicApiKey
          let hint :=
            if hasAnyApiKey then "Check worker logs with: wrangler tail"
            else "No API key set. Run: wrangler secret put AI_GATEWAY_API_KEY (or ANTHROPIC_API_KEY)"
          if acceptsHtml then [.respond (.startErrorHtml errorMessage)]
          else [.respond (.startErrorJson errorMessage hint)]
       | .ok _ =>
          if isWebSocketRequest then [.respond .wsRelay]
          else [.respond .forwarded])

/-! ## Worker: HTTP proxy forwarding (src/src/index.ts 356-369) -/

/-- Case-insensitive header-name equality, as the fetch `Headers` class
uses. -/
def headerNameEq (a b : String) : Bool := jsToLowerCase a == jsToLowerCase b

/-- `Headers.set`: replace the value of an existing entry with that name
(case-insensitively), or append a new entry. -/
def headerSet (hs : List (String × String)) (name value : String) :
    List (String × String) :=
  if hs.any (fun p => headerNameEq p.1 name) then
    hs.map (fun p => if headerNameEq p.1 name then (p.1, value) else p)
  else hs ++ [(name, value)]

/-- An HTTP response as the proxy observes and rebuilds it. -/
structure HttpResponse where
  status : Nat
  statusText : String
  headers : List (String × String)
  /-- The body stream, passed through untouched; modelled as raw bytes. -/
  body : List Nat
deriving DecidableEq, Repr

/-- The proxy's response rebuild: same status, status text and body as the
gateway's response, with the two debug headers set on a copy of its
headers. -/
def proxyForward (gatewayResponse : HttpResponse) (path : String) :
    HttpResponse :=
  { status := gatewayResponse.status
    statusText := gatewayResponse.statusText
    headers :=
      headerSet (headerSet gatewayResponse.headers "X-Worker-Debug"
        "proxy-to-moltbot") "X-Debug-Path" path
    body := gatewayResponse.body }

/-! ## Worker: container environment construction (src/src/gateway/env.ts)

`buildEnvVars` maps worker bindings to the environment of the container
process. It is written in four comment-delimited sections (native gateway,
legacy gateway, direct provider fallback, gateway/channel configuration),
embedded here as four sequential passes over the output record. -/

/-- The worker bindings (`MoltbotEnv` in src/unnamed/part_001) read by
`buildEnvVars`; every field is an optional secret/string. -/
structure MoltbotEnvBindings where
  /-- `CF_ACCOUNT_ID`. -/
  cfAccountId : Option String
  /-- `AI_GATEWAY_ID`. -/
  aiGatewayId : Option String
  /-- `AI_GATEWAY_API_KEY`. -/
  aiGatewayApiKey : Option String
  /-- `CF_AIG_AUTHORIZATION`. -/
  cfAigAuthorization : Option String
  /-- `DEFAULT_MODEL`. -/
  defaultModel : Option String
  /-- `AI_GATEWAY_BASE_URL`. -/
  aiGatewayBaseUrl : Option String
  /-- `ANTHROPIC_API_KEY`. -/
  anthropicApiKey : Option String
  /-- `ANTHROPIC_BASE_URL`. -/
  anthropicBaseUrl : Option String
  /-- `OPENAI_API_KEY`. -/
  openaiApiKey : Option String
  /-- `MOLTBOT_GATEWAY_TOKEN`. -/
  moltbotGatewayToken : Option String
  /-- `DEV_MODE`. -/
  devMode : Option String
  /-- `CLAWDBOT_BIND_MODE`. -/
  clawdbotBindMode : Option String
  /-- `TELEGRAM_BOT_TOKEN`. -/
  telegramBotToken : Option String
  /-- `TELEGRAM_DM_POLICY`. -/
  telegramDmPolicy : Option String
  /-- `DISCORD_BOT_TOKEN`. -/
  discordBotToken : Option String
  /-- `DISCORD_DM_POLICY`. -/
  discordDmPolicy : Option String
  /-- `SLACK_BOT_TOKEN`. -/
  slackBotToken : Option String
  /-- `SLACK_APP_TOKEN`. -/
  slackAppToken : Option String
  /-- `CDP_SECRET`. -/
  cdpSecret : Option String
  /-- `WORKER_URL`. -/
  workerUrl : Option String

/-- The record returned by `buildEnvVars`: each key of the JS
`Record<string, string>` is a field, `none` meaning absent. -/
structure ContainerEnvVars where
  cfAccountId : Option String := none
  cloudflareAiGatewayAccountId : Option String := none
  cloudflareAiGatewayGatewayId : Option String := none
  cloudflareAiGatewayApiKey : Option String := none
  aiGatewayApiKey : Option String := none
  cfAigAuthorization : Option String := none
  defaultModel : Option String := none
  aiGatewayBaseUrl : Option String := none
  openaiBaseUrl : Option String := none
  openaiApiKey : Option String := none
  anthropicBaseUrl : Option String := none
  anthropicApiKey : Option String := none
  clawdbotGatewayToken : Option String := none
  clawdbotDevMode : Option String := none
  clawdbotBindMode : Option String := none
  telegramBotToken : Option String := none
  telegramDmPolicy : Option String := none
  discordBotToken : Option String := none
  discordDmPolicy : Option String := none
  slackBotToken : Option String := none
  slackAppToken : Option String := none
  cdpSecret : Option String := none
  workerUrl : Option String := none
deriving DecidableEq, Repr

/-- The effect of the regex replace `/\/+$/` with the empty string: strip
every trailing slash. -/
def stripTrailingSlashes (s : String) : String :=
  String.mk ((s.data.reverse.dropWhile (fun c => c == '/')).reverse)

/-- JavaScript `s.endsWith(sub)`, written over character lists so that it
evaluates structurally. -/
def jsEndsWith (s tail : String) : Bool :=
  charsPrefix tail.data.reverse s.data.reverse

/-- `normalizedBaseUrl` of `buildEnvVars`:
`env.AI_GATEWAY_BASE_URL?.replace(/\/+$/, '')`. -/
def legacyNormalizedBaseUrl (env : MoltbotEnvBindings) : Option String :=
  env.aiGatewayBaseUrl.map stripTrailingSlashes

/-- `isOpenAIGateway` of `buildEnvVars`: the normalized URL ends with
`/openai` or `/compat` (undefined when the URL is undefined, which the
containing conditional treats as false). -/
def legacyIsOpenAIGateway (env : MoltbotEnvBindings) : Bool :=
  ((legacyNormalizedBaseUrl env).map fun u =>
    jsEndsWith u "/openai" || jsEndsWith u "/compat").getD false

/-- Native AI-gateway section of `buildEnvVars`: copies `CF_ACCOUNT_ID`,
`AI_GATEWAY_ID`, `AI_GATEWAY_API_KEY`, `CF_AIG_AUTHORIZATION` and
`DEFAULT_MODEL` into their container names when truthy. -/
def applyNativeGatewayVars (env : MoltbotEnvBindings)
    (envVars : ContainerEnvVars) : ContainerEnvVars :=
  let envVars := if truthy env.cfAccountId then
      { envVars with cfAccountId := env.cfAccountId
                     cloudflareAiGatewayAccountId := env.cfAccountId }
    else envVars
  let envVars := if truthy env.aiGatewayId then
      { envVars with cloudflareAiGatewayGatewayId := env.aiGatewayId }
    else envVars
  let envVars := if truthy env.aiGatewayApiKey then
      { envVars with cloudflareAiGatewayApiKey := env.aiGatewayApiKey
                     aiGatewayApiKey := env.aiGatewayApiKey }
    else envVars
  let envVars := if truthy env.cfAigAuthorization then
      { envVars with cfAigAuthorization := env.cfAigAuthorization }
    else envVars
  if truthy env.defaultModel then
    { envVars with defaultModel := env.defaultModel }
  else envVars

/-- Legacy AI-gateway section of `buildEnvVars`: for a truthy normalized
base URL, record it and route `AI_GATEWAY_API_KEY` to `OPENAI_API_KEY`
(with `OPENAI_BASE_URL`) for an `/openai` or `/compat` URL, otherwise to
`ANTHROPIC_API_KEY` (with `ANTHROPIC_BASE_URL`). -/
def applyLegacyGatewayVars (env : MoltbotEnvBindings)
    (envVars : ContainerEnvVars) : ContainerEnvVars :=
  let normalizedBaseUrl := legacyNormalizedBaseUrl env
  if truthy normalizedBaseUrl then
    let withBase := { envVars with aiGatewayBaseUrl := normalizedBaseUrl }
    if legacyIsOpenAIGateway env then
      let withUrl := { withBase with openaiBaseUrl := normalizedBaseUrl }
      if truthy env.aiGatewayApiKey then
        { withUrl with openaiApiKey := env.aiGatewayApiKey }
      else withUrl
    else
      let withUrl := { withBase with anthropicBaseUrl := normalizedBaseUrl }
      if truthy env.aiGatewayApiKey then
        { withUrl with anthropicApiKey := env.aiGatewayApiKey }
      else withUrl
  else envVars

/-- Direct-provider section of `buildEnvVars`: copy `ANTHROPIC_API_KEY`,
`OPENAI_API_KEY` and `ANTHROPIC_BASE_URL` only into entries the earlier
sections left unset. -/
def applyDirectProviderVars (env : MoltbotEnvBindings)
    (envVars : ContainerEnvVars) : ContainerEnvVars :=
  let envVars :=
    if !truthy envVars.anthropicApiKey && truthy env.anthropicApiKey then
      { envVars with anthropicApiKey := env.anthropicApiKey }
    else envVars
  let envVars :=
    if !truthy envVars.openaiApiKey && truthy env.openaiApiKey then
      { envVars with openaiApiKey := env.openaiApiKey }
    else envVars
  if truthy env.anthropicBaseUrl && !truthy envVars.anthropicBaseUrl then
    { envVars with anthropicBaseUrl := env.anthropicBaseUrl }
  else envVars

/-- Gateway and channel section of `buildEnvVars`: straight truthy-guarded
copies of the token, mode, channel, CDP and worker-URL settings. -/
def applyGatewayChannelVars (env : MoltbotEnvBindings)
    (envVars : ContainerEnvVars) : ContainerEnvVars :=
  let envVars := if truthy env.moltbotGatewayToken then
      { envVars with clawdbotGatewayToken := env.moltbotGatewayToken }
    else envVars
  let envVars := if truthy env.devMode then
      { envVars with clawdbotDevMode := env.devMode }
    else envVars
  let envVars := if truthy env.clawdbotBindMode then
      { envVars with clawdbotBindMode := env.clawdbotBindMode }
    else envVars
  let envVars := if truthy env.telegramBotToken then
      { envVars with telegramBotToken := env.telegramBotToken }
    else envVars
  let envVars := if truthy env.telegramDmPolicy then
      { envVars with telegramDmPolicy := env.telegramDmPolicy }
    else envVars
  let envVars := if truthy env.discordBotToken then
      { envVars with discordBotToken := env.discordBotToken }
    else envVars
  let envVars := if truthy env.discordDmPolicy then
      { envVars with discordDmPolicy := env.discordDmPolicy }
    else envVars
  let envVars := if truthy env.slackBotToken then
      { envVars with slackBotToken := env.slackBotToken }
    else envVars
  let envVars := if truthy env.slackAppToken then
      { envVars with slackAppToken := env.slackAppToken }
    else envVars
  let envVars := if truthy env.cdpSecret then
      { envVars with cdpSecret := env.cdpSecret }
    else envVars
  if truthy env.workerUrl then
    { envVars with workerUrl := env.workerUrl }
  else envVars

/-- The worker's `buildEnvVars` (src/src/gateway/env.ts): the four sections
applied in source order to an initially empty record. -/
def buildEnvVars (env : MoltbotEnvBindings) : ContainerEnvVars :=
  applyGatewayChannelVars env
    (applyDirectProviderVars env
      (applyLegacyGatewayVars env
        (applyNativeGatewayVars env {})))

/-- A bindings record with nothing set. -/
def emptyBindings : MoltbotEnvBindings :=
  { cfAccountId := none, aiGatewayId := none, aiGatewayApiKey := none
    cfAigAuthorization := none, defaultModel := none, aiGatewayBaseUrl := none
    anthropicApiKey := none, anthropicBaseUrl := none, openaiApiKey := none
    moltbotGatewayToken := none, devMode := none, clawdbotBindMode := none
    telegramBotToken := none, telegramDmPolicy := none
    discordBotToken := none, discordDmPolicy := none
    slackBotToken := none, slackAppToken := none
    cdpSecret := none, workerUrl := none }

/-- The C10 counterexample environment: a legacy base URL consisting only of
a slash (truthy, hence "set"), a legacy gateway key, and a direct Anthropic
key. -/
def slashBaseUrlBindings : MoltbotEnvBindings :=
  { emptyBindings with
      aiGatewayBaseUrl := some "/"
      aiGatewayApiKey := some "gwkey"
      anthropicApiKey := some "directkey" }

/-- A legacy `/compat` base URL together with a gateway key and a competing
direct OpenAI key. -/
def compatBaseUrlBindings : MoltbotEnvBindings :=
  { emptyBindings with
      aiGatewayBaseUrl := some "https://gw.example/compat"
      aiGatewayApiKey := some "gwkey"
      openaiApiKey := some "directopenai" }

/-! ## Worker: WebSocket relay close/error propagation (src/src/index.ts 328-347)

The relay pairs the caller-facing socket (`serverWs`) with the
gateway-facing socket (`containerWs`). Close and error events delivered to
one leg run the registered handler, which closes the peer; a handler step
is modelled atomically (the event's effect on its own leg together with the
handler's close of the peer). Message events do not change leg state and
are modelled separately (`relayGatewayFrame`). -/

/-- State of one leg of the relayed WebSocket pair. -/
inductive LegState where
  | active
  | closed (code : Nat) (reason : String)
deriving DecidableEq, Repr

/-- Whether a leg has been closed. -/
def LegState.isClosed : LegState → Bool
  | .active => false
  | .closed _ _ => true

/-- Joint state of the two legs of the relay. -/
structure RelayState where
  /-- The caller-facing leg (`serverWs`). -/
  caller : LegState
  /-- The gateway-facing leg (`containerWs`). -/
  gateway : LegState
deriving DecidableEq, Repr

/-- Events delivered to the relay's close and error handlers. -/
inductive RelayEvent where
  /-- The caller leg closed with the given code and reason. -/
  | callerClose (code : Nat) (reason : String)
  /-- The gateway leg closed with the given code and reason. -/
  | gatewayClose (code : Nat) (reason : String)
  /-- An error event on the caller leg. -/
  | callerError
  /-- An error event on the gateway leg. -/
  | gatewayError
deriving DecidableEq, Repr

/-- `WebSocket.close(code, reason)` on a leg: closes an active leg and is a
no-op on an already-closed one. -/
def closeLeg (leg : LegState) (code : Nat) (reason : String) : LegState :=
  match leg with
  | .active => .closed code reason
  | .closed c r => .closed c r

/-- One atomic handler step of the relay: a close event on a leg records
that leg as closed with the event's code and reason and runs the handler,
which calls `close(event.code, event.reason)` on the peer; an error event
runs the handler, which closes the peer with 1011 and the fixed reason,
while the erroring socket itself is torn down by the WebSocket runtime
(abnormal closure 1006). -/
def relayStep (s : RelayState) (e : RelayEvent) : RelayState :=
  match e with
  | .callerClose code reason =>
      { caller := closeLeg s.caller code reason
        gateway := closeLeg s.gateway code reason }
  | .gatewayClose code reason =>
      { caller := closeLeg s.caller code reason
        gateway := closeLeg s.gateway code reason }
  | .callerError =>
      { caller := closeLeg s.caller 1006 ""
        gateway := closeLeg s.gateway 1011 "Client error" }
  | .gatewayError =>
      { caller := closeLeg s.caller 1011 "Container error"
        gateway := closeLeg s.gateway 1006 "" }

/-- The relay starts with both legs accepted and active. -/
def relayInit : RelayState := { caller := .active, gateway := .active }

/-- States the relay can reach from its initial state under any event
sequence. -/
inductive RelayReachable : RelayState → Prop where
  | init : RelayReachable relayInit
  | step (s : RelayState) (e : RelayEvent) :
      RelayReachable s → RelayReachable (relayStep s e)

/-! ## Worker: WebSocket frame transformation (src/src/index.ts 43-53, 296-316)

The gateway-to-caller message handler inspects text frames: those containing
the literal substring `"error"` are run through `JSON.parse`; when the
parsed value has a truthy top-level string `error` field, that field is
rewritten by `transformErrorMessage` and the whole value re-serialized with
`JSON.stringify`. Parsing and serialization are embedded below.

Modelling notes: number literals are kept verbatim by the parser and echoed
by the serializer (the handler never inspects numbers; JavaScript float
re-formatting of non-canonical literals is out of scope); strings containing
lone UTF-16 surrogates are treated as parse failures (Lean strings cannot
hold them), in which case the model forwards the frame unchanged. -/

/-- JSON values as `JSON.parse` produces them. Object fields are kept in
first-insertion order with duplicate keys resolved to the last value, as
`JSON.parse` does. -/
inductive JsValue where
  | jsNull
  | jsBool (b : Bool)
  | jsNum (lit : String)
  | jsStr (s : String)
  | jsArr (xs : List JsValue)
  | jsObj (fields : List (String × JsValue))

/-- JSON insignificant whitespace. -/
def jsonWs (c : Char) : Bool :=
  c == ' ' || c == '\t' || c == '\n' || c == '\r'

/-- Skip insignificant whitespace. -/
def skipJsonWs (cs : List Char) : List Char :=
  cs.dropWhile jsonWs

/-- Value of a hexadecimal digit. -/
def hexVal (c : Char) : Option Nat :=
  if '0' ≤ c ∧ c ≤ '9' then some (c.toNat - 48)
  else if 'a' ≤ c ∧ c ≤ 'f' then some (c.toNat - 87)
  else if 'A' ≤ c ∧ c ≤ 'F' then some (c.toNat - 55)
  else none

/-- Parse the body of a JSON string after its opening quote: decoded
characters plus the remainder after the closing quote. Handles the JSON
escapes including `\uXXXX` with surrogate pairs; raw control characters and
lone surrogates are rejected. -/
def parseStringBody : Nat → List Char → Option (List Char × List Char)
  | 0, _ => none
  | _ + 1, [] => none
  | fuel + 1, c :: rest =>
    if c == '"' then some ([], rest)
    else if c == '\\' then
      match rest with
      | [] => none
      | e :: rest2 =>
        if e == '"' then
          (parseStringBody fuel rest2).map fun p => ('"' :: p.1, p.2)
        else if e == '\\' then
          (parseStringBody fuel rest2).map fun p => ('\\' :: p.1, p.2)
        else if e == '/' then
          (parseStringBody fuel rest2).map fun p => ('/' :: p.1, p.2)
        else if e == 'b' then
          (parseStringBody fuel rest2).map fun p => (Char.ofNat 8 :: p.1, p.2)
        else if e == 'f' then
          (parseStringBody fuel rest2).map fun p => (Char.ofNat 12 :: p.1, p.2)
        else if e == 'n' then
          (parseStringBody fuel rest2).map fun p => ('\n' :: p.1, p.2)
        else if e == 'r' then
          (parseStringBody fuel rest2).map fun p => ('\r' :: p.1, p.2)
        else if e == 't' then
          (parseStringBody fuel rest2).map fun p => ('\t' :: p.1, p.2)
        else if e == 'u' then
          match rest2 with
          | h1 :: h2 :: h3 :: h4 :: rest3 =>
            match hexVal h1, hexVal h2, hexVal h3, hexVal h4 with
            | some a, some b, some c2, some d =>
              let code := ((a * 16 + b) * 16 + c2) * 16 + d
              if 0xD800 ≤ code ∧ code ≤ 0xDBFF then
                match rest3 with
                | '\\' :: 'u' :: g1 :: g2 :: g3 :: g4 :: rest4 =>
                  match hexVal g1, hexVal g2, hexVal g3, hexVal g4 with
                  | some a2, some b2, some c3, some d2 =>
                    let lo := ((a2 * 16 + b2) * 16 + c3) * 16 + d2
                    if 0xDC00 ≤ lo ∧ lo ≤ 0xDFFF then
                      (parseStringBody fuel rest4).map fun p =>
                        (Char.ofNat
                          (0x10000 + (code - 0xD800) * 0x400 + (lo - 0xDC00)) ::
                            p.1, p.2)
                    else none
                  | _, _, _, _ => none
                | _ => none
              else if 0xDC00 ≤ code ∧ code ≤ 0xDFFF then none
              else
                (parseStringBody fuel rest3).map fun p =>
                  (Char.ofNat code :: p.1, p.2)
            | _, _, _, _ => none
          | _ => none
        else none
    else if c.toNat < 32 then none
    else (parseStringBody fuel rest).map fun p => (c :: p.1, p.2)

/-- Parse the fraction and exponent tail of a JSON number after the integer
part, returning the full literal. -/
def parseFracExp (intPart : List Char) (cs : List Char) :
    Option (List Char × List Char) :=
  let fracRes : Option (List Char × List Char) :=
    match cs with
    | '.' :: rest =>
        let ds := rest.takeWhile Char.isDigit
        if ds.isEmpty then none
        else some ('.' :: ds, rest.dropWhile Char.isDigit)
    | _ => some ([], cs)
  match fracRes with
  | none => none
  | some (frac, cs2) =>
    match cs2 with
    | c :: rest =>
      if c == 'e' || c == 'E' then
        let sgnRest : List Char × List Char :=
          match rest with
          | s :: r2 => if s == '+' || s == '-' then ([s], r2) else ([], rest)
          | [] => ([], rest)
        let ds := sgnRest.2.takeWhile Char.isDigit
        if ds.isEmpty then none
        else some (intPart ++ frac ++ (c :: sgnRest.1 ++ ds),
          sgnRest.2.dropWhile Char.isDigit)
      else some (intPart ++ frac, cs2)
    | [] => some (intPart ++ frac, cs2)

/-- Parse a JSON number literal (kept verbatim). -/
def parseNumberLit (cs : List Char) : Option (List Char × List Char) :=
  let negRest : List Char × List Char :=
    match cs with
    | '-' :: rest => (['-'], rest)
    | _ => ([], cs)
  match negRest.2 with
  | '0' :: rest => parseFracExp (negRest.1 ++ ['0']) rest
  | c :: rest =>
    if c.isDigit then
      parseFracExp (negRest.1 ++ (c :: rest.takeWhile Char.isDigit))
        (rest.dropWhile Char.isDigit)
    else none
  | [] => none

/-- Record a parsed object member: `JSON.parse` keeps the first position of
a repeated key but overwrites its value. -/
def insertField (fields : List (String × JsValue)) (k : String)
    (v : JsValue) : List (String × JsValue) :=
  if fields.any (fun p => p.1 == k) then
    fields.map fun p => if p.1 == k then (k, v) else p
  else fields ++ [(k, v)]

mutual

/-- `JSON.parse` value parser over a character list, with a fuel bound (one
unit per nesting or repetition step; the top-level entry supplies the input
length plus one, which suffices since every step consumes input). -/
def parseValue : Nat → List Char → Option (JsValue × List Char)
  | 0, _ => none
  | fuel + 1, cs =>
    match skipJsonWs cs with
    | [] => none
    | c :: rest =>
      if c == '"' then
        (parseStringBody (fuel + 1) rest).map fun p =>
          (.jsStr (String.mk p.1), p.2)
      else if c == '\x7b' then
        match skipJsonWs rest with
        | '\x7d' :: rest2 => some (.jsObj [], rest2)
        | _ => parseMembersLoop fuel rest []
      else if c == '[' then
        match skipJsonWs rest with
        | ']' :: rest2 => some (.jsArr [], rest2)
        | _ => parseElemsLoop fuel rest []
      else if c == 't' then
        match rest with
        | 'r' :: 'u' :: 'e' :: rest2 => some (.jsBool true, rest2)
        | _ => none
      else if c == 'f' then
        match rest with
        | 'a' :: 'l' :: 's' :: 'e' :: rest2 => some (.jsBool false, rest2)
        | _ => none
      else if c == 'n' then
        match rest with
        | 'u' :: 'l' :: 'l' :: rest2 => some (.jsNull, rest2)
        | _ => none
      else if c == '-' || c.isDigit then
        (parseNumberLit (c :: rest)).map fun p =>
          (.jsNum (String.mk p.1), p.2)
      else none

/-- Members of an object after its opening brace (non-empty case). -/
def parseMembersLoop : Nat → List Char → List (String × JsValue) →
    Option (JsValue × List Char)
  | 0, _, _ => none
  | fuel + 1, cs, acc =>
    match skipJsonWs cs with
    | c :: rest =>
      if c == '"' then
        match parseStringBody fuel rest with
        | some (keyChars, rest2) =>
          match skipJsonWs rest2 with
          | ':' :: rest3 =>
            match parseValue fuel rest3 with
            | some (v, rest4) =>
              let acc2 := insertField acc (String.mk keyChars) v
              match skipJsonWs rest4 with
              | ',' :: rest5 => parseMembersLoop fuel rest5 acc2
              | '\x7d' :: rest5 => some (.jsObj acc2, rest5)
              | _ => none
            | none => none
          | _ => none
        | none => none
      else none
    | [] => none

/-- Elements of an array after its opening bracket (non-empty case). -/
def parseElemsLoop : Nat → List Char → List JsValue →
    Option (JsValue × List Char)
  | 0, _, _ => none
  | fuel + 1, cs, acc =>
    match parseValue fuel cs with
    | some (v, rest) =>
      match skipJsonWs rest with
      | ',' :: rest2 => parseElemsLoop fuel rest2 (acc ++ [v])
      | ']' :: rest2 => some (.jsArr (acc ++ [v]), rest2)
      | _ => none
    | none => none

end

/-- `JSON.parse`: whole-input parse (whitespace-padded), or failure. -/
def jsonParse (s : String) : Option JsValue :=
  match parseValue (s.data.length + 1) s.data with
  | some (v, rest) => if (skipJsonWs rest).isEmpty then some v else none
  | none => none

/-- Lowercase hexadecimal digit character for `n < 16`. -/
def hexDigitChar (n : Nat) : Char :=
  if n < 10 then Char.ofNat (48 + n) else Char.ofNat (87 + n)

/-- `JSON.stringify` escaping for one character inside a string. -/
def escapeJsonChar (c : Char) : List Char :=
  if c == '"' then ['\\', '"']
  else if c == '\\' then ['\\', '\\']
  else if c == Char.ofNat 8 then ['\\', 'b']
  else if c == Char.ofNat 12 then ['\\', 'f']
  else if c == '\n' then ['\\', 'n']
  else if c == '\r' then ['\\', 'r']
  else if c == '\t' then ['\\', 't']
  else if c.toNat < 32 then
    ['\\', 'u', '0', '0', hexDigitChar (c.toNat / 16), hexDigitChar (c.toNat % 16)]
  else [c]

/-- `JSON.stringify` of a string, quotes included. -/
def quoteJsonString (s : String) : String :=
  String.mk ('"' :: (s.data.map escapeJsonChar).flatten ++ ['"'])

mutual

/-- `JSON.stringify` without an indent argument: compact output, object
fields in insertion order. -/
def stringifyJson : JsValue → String
  | .jsNull => "null"
  | .jsBool true => "true"
  | .jsBool false => "false"
  | .jsNum lit => lit
  | .jsStr s => quoteJsonString s
  | .jsArr xs => "[" ++ stringifyArr xs ++ "]"
  | .jsObj fields => "\x7b" ++ stringifyFields fields ++ "\x7d"

/-- Comma-separated serialization of array elements. -/
def stringifyArr : List JsValue → String
  | [] => ""
  | [x] => stringifyJson x
  | x :: y :: xs => stringifyJson x ++ "," ++ stringifyArr (y :: xs)

/-- Comma-separated serialization of object members. -/
def stringifyFields : List (String × JsValue) → String
  | [] => ""
  | [(k, v)] => quoteJsonString k ++ ":" ++ stringifyJson v
  | (k, v) :: p :: ps =>
      quoteJsonString k ++ ":" ++ stringifyJson v ++ "," ++
        stringifyFields (p :: ps)

end

/-- The worker's `transformErrorMessage` (src/src/index.ts 43-53). -/
def transformErrorMessage (message host : String) : String :=
  if jsIncludes message "gateway token missing" ||
      jsIncludes message "gateway token mismatch" then
    "Invalid or missing token. Visit https://" ++ host ++
      "?token=\x7bREPLACE_WITH_YOUR_TOKEN\x7d"
  else if jsIncludes message "pairing required" then
    "Pairing required. Visit https://" ++ host ++ "/_admin/"
  else message

/-- The handler's `parsed.error && typeof parsed.error === 'string'` test:
the `error` string when the parsed value is an object with a non-empty
string `error` field (property access on non-objects yields undefined, and
on `null` throws into the surrounding catch; both forward unchanged). -/
def errorStringField : JsValue → Option String
  | .jsObj fields =>
      match fields.lookup "error" with
      | some (.jsStr e) => if e == "" then none else some e
      | _ => none
  | _ => none

/-- Rewrite the `error` field of a parsed object (assignment to an existing
property keeps its position). -/
def setErrorField (v : JsValue) (newError : String) : JsValue :=
  match v with
  | .jsObj fields =>
      .jsObj (fields.map fun p =>
        if p.1 == "error" then (p.1, .jsStr newError) else p)
  | other => other

/-- A WebSocket frame as the relay sees it. -/
inductive WsFrame where
  | text (data : String)
  | binary (bytes : List Nat)
deriving DecidableEq, Repr

/-- The gateway-to-caller message handler (src/src/index.ts 296-316): text
frames containing the substring `"error"` that parse to an object with a
non-empty string `error` field are re-serialized with the transformed
error; every other frame is sent on unchanged. -/
def relayGatewayFrame (host : String) (frame : WsFrame) : WsFrame :=
  match frame with
  | .binary bytes => .binary bytes
  | .text data =>
    if jsIncludes data "\"error\"" then
      match jsonParse data with
      | some parsed =>
        match errorStringField parsed with
        | some e =>
            .text (stringifyJson
              (setErrorField parsed (transformErrorMessage e host)))
        | none => .text data
      | none => .text data
    else .text data

/-! ## GatewaySupervisor single-flight start (modelled from the spec)

Modelled from the spec: the implementation of `ensureMoltbotGateway` (the
worker's gateway module) is not among the core sources — only its callers
(src/src/index.ts) and the container-side pgrep guard (startup script) are.
Spec section 5 specifies the worker-side guard: for any number of
concurrent callers observing "not running", exactly one underlying spawn
occurs and all callers observe the same eventual success or failure; the
guard is keyed on the single gateway identity and released only after the
readiness poll completes. The model below is an interleaving semantics of
one start episode: callers that observed "not running" call in one at a
time; the first acquires the guard and issues the one spawn, later callers
await the same in-flight start, and the flight resolves once, every
awaiting caller observing that single outcome. -/

/-- State of one single-flight start episode with symmetric callers counted
by phase. Every caller counted in `nDone` observed the episode's single
`outcome`. -/
structure SingleFlightState where
  /-- Callers that observed "not running" and have not yet called
  `ensureRunning`. -/
  nStart : Nat
  /-- Callers awaiting the in-flight start. -/
  nWaiting : Nat
  /-- Callers that have observed the episode's outcome. -/
  nDone : Nat
  /-- Whether a start is in flight (the single-flight guard is held). -/
  guard : Bool
  /-- Number of underlying gateway spawns issued. -/
  spawns : Nat
  /-- The episode's resolved outcome: `true` for readiness, `false` for a
  StartupError. -/
  outcome : Option Bool
deriving DecidableEq, Repr

/-- Initial state of an episode with `n` concurrent callers observing "not
running". -/
def singleFlightInit (n : Nat) : SingleFlightState :=
  { nStart := n, nWaiting := 0, nDone := 0, guard := false, spawns := 0,
    outcome := none }

/-- Interleaved steps of one start episode. -/
inductive SingleFlightStep : SingleFlightState → SingleFlightState → Prop where
  /-- A caller enters while no start is in flight: it takes the guard and
  issues the one spawn. -/
  | enterSpawn (s : SingleFlightState) :
      0 < s.nStart → s.guard = false → s.outcome = none →
      SingleFlightStep s
        { s with nStart := s.nStart - 1, nWaiting := s.nWaiting + 1,
                 guard := true, spawns := s.spawns + 1 }
  /-- A caller enters while a start is in flight: it awaits that start
  instead of spawning. -/
  | enterAwait (s : SingleFlightState) :
      0 < s.nStart → s.guard = true →
      SingleFlightStep s
        { s with nStart := s.nStart - 1, nWaiting := s.nWaiting + 1 }
  /-- The in-flight start resolves (readiness reached, or timeout/exit
  failure): the guard is released only now, and every awaiting caller
  observes the one outcome. -/
  | resolve (s : SingleFlightState) (b : Bool) :
      s.guard = true → s.outcome = none →
      SingleFlightStep s
        { s with nWaiting := 0, nDone := s.nDone + s.nWaiting,
                 guard := false, outcome := some b }

/-- States reachable in an episode with `n` callers. -/
inductive SingleFlightReachable (n : Nat) : SingleFlightState → Prop where
  | init : SingleFlightReachable n (singleFlightInit n)
  | step (s t : SingleFlightState) : SingleFlightReachable n s →
      SingleFlightStep s t → SingleFlightReachable n t

/-- A sample worker environment with nothing configured. -/
def emptyWorkerEnv : WorkerEnv :=
  { moltbotGatewayToken := none, cfAccessTeamDomain := none
    cfAccessAud := none, cfAccountId := none, aiGatewayId := none
    aiGatewayApiKey := none, aiGatewayBaseUrl := none
    anthropicApiKey := none, devMode := none }

/-! ## Theorems settling the claims -/

/-- An absent optional value is falsy. -/
theorem truthy_none : truthy none = false := rfl

/-- A successful restore decision requires the remote backup probe file. -/
theorem should_restore_requires_remote (fs : BackupFs)
    (h : should_restore_from_r2 fs = true) : fs.r2ConfigJsonFile = true := by
  by_contra hfalse
  have hf : fs.r2ConfigJsonFile = false := by
    cases hcase : fs.r2ConfigJsonFile
    · rfl
    · exact absurd hcase hfalse
  simp [should_restore_from_r2, hf] at h

/-- C2: the restore decision of the startup script satisfies, for every
combination of remote and local state: with no remote backup config the
decision is negative regardless of local state; with a remote backup and no
local config the decision is positive regardless of marker values; with a
remote backup, a local config, and both sync markers present, the decision
is positive exactly when the remote marker is strictly greater; and with a
remote backup, a local config, and at least one marker missing, the decision
is negative (local tree untouched). -/
theorem restore_decision_characterization (fs : BackupFs) :
    (fs.r2ConfigJsonFile = false → should_restore_from_r2 fs = false) ∧
    (fs.r2ConfigJsonFile = true → fs.localConfigFile = false →
      should_restore_from_r2 fs = true) ∧
    (∀ r2Time localTime, fs.r2ConfigJsonFile = true → fs.localConfigFile = true →
      fs.r2SyncMarker = some r2Time → fs.localSyncMarker = some localTime →
      (should_restore_from_r2 fs = true ↔ r2Time > localTime)) ∧
    (fs.r2ConfigJsonFile = true → fs.localConfigFile = true →
      (fs.r2SyncMarker = none ∨ fs.localSyncMarker = none) →
      should_restore_from_r2 fs = false) := by
  refine ⟨fun h => ?_, fun h1 h2 => ?_, fun r2Time localTime h1 h2 h3 h4 => ?_,
    fun h1 h2 h3 => ?_⟩
  · simp [should_restore_from_r2, h]
  · simp [should_restore_from_r2, h1, h2]
  · simp [should_restore_from_r2, h1, h2, h3, h4]
  · rcases h3 with h3 | h3 <;> simp [should_restore_from_r2, h1, h2, h3]

/-- Witness for C2: with a remote backup, a local config and markers 7 > 3,
the decision is positive. -/
theorem restore_decision_characterization_witness :
    should_restore_from_r2
      { r2ConfigJsonFile := true, r2ConfigDir := true, r2SkillsDir := true
        r2SkillsDirNonEmpty := true, localConfigFile := true
        r2SyncMarker := some 7, localSyncMarker := some 3 } = true :=
  ((restore_decision_characterization _).2.2.1 7 3 rfl rfl rfl rfl).mpr (by decide)

/-- C8: when the startup script decides to restore from R2, the remote config
directory is always copied over the local one (its existence follows from the
filesystem fact that the probe file `clawdbot/clawdbot.json` lives inside it),
and the remote skills directory is copied exactly when it exists and is
non-empty. -/
theorem restore_copy_policy (fs : BackupFs)
    (hdir : fs.r2ConfigJsonFile = true → fs.r2ConfigDir = true)
    (hres : should_restore_from_r2 fs = true) :
    (restoreFromR2 fs).configCopied = true ∧
    ((restoreFromR2 fs).skillsCopied = true ↔
      fs.r2SkillsDir = true ∧ fs.r2SkillsDirNonEmpty = true) := by
  have hjson := should_restore_requires_remote fs hres
  constructor
  · simp [restoreFromR2, hres, hdir hjson]
  · simp [restoreFromR2, hres]

/-- Witness for C8: restoring with a non-empty remote skills directory copies
both the config tree and the skills tree. -/
theorem restore_copy_policy_witness :
    (restoreFromR2
      { r2ConfigJsonFile := true, r2ConfigDir := true, r2SkillsDir := true
        r2SkillsDirNonEmpty := true, localConfigFile := false
        r2SyncMarker := none, localSyncMarker := none }).configCopied = true ∧
    ((restoreFromR2
      { r2ConfigJsonFile := true, r2ConfigDir := true, r2SkillsDir := true
        r2SkillsDirNonEmpty := true, localConfigFile := false
        r2SyncMarker := none, localSyncMarker := none }).skillsCopied = true ↔
      True ∧ True) := by
  have h := restore_copy_policy
    { r2ConfigJsonFile := true, r2ConfigDir := true, r2SkillsDir := true
      r2SkillsDirNonEmpty := true, localConfigFile := false
      r2SyncMarker := none, localSyncMarker := none }
    (fun _ => rfl) (by decide)
  exact ⟨h.1, by simpa using h.2⟩

/-- C4: provider selection follows the strict precedence native gateway
provider (selected exactly when both an account id and a provider api key
are truthy) over direct Anthropic (when its key is truthy) over the built-in
default; whenever the native provider is selected the persisted legacy
`models.providers.anthropic` and `models.providers.openai` entries are
removed, and in the other branches the persisted entries are untouched. -/
theorem provider_selection_precedence (env : NodeEnv) (cfg : ModelsProviders) :
    ((truthy (jsOr env.cloudflareAiGatewayAccountId env.cfAccountId) &&
      truthy (jsOr env.cloudflareAiGatewayApiKey env.aiGatewayApiKey)) = true →
      (projectModelProviders env cfg).providers.anthropic = false ∧
      (projectModelProviders env cfg).providers.openai = false ∧
      ((projectModelProviders env cfg).providers.cloudflareAiGateway).isSome = true) ∧
    ((truthy (jsOr env.cloudflareAiGatewayAccountId env.cfAccountId) &&
      truthy (jsOr env.cloudflareAiGatewayApiKey env.aiGatewayApiKey)) = false →
      (projectModelProviders env cfg).providers = cfg ∧
      (truthy env.anthropicApiKey = true →
        (projectModelProviders env cfg).primaryModel =
          "anthropic/claude-opus-4-5-20251101") ∧
      (truthy env.anthropicApiKey = false →
        (projectModelProviders env cfg).primaryModel =
          "anthropic/claude-opus-4-5")) := by
  constructor
  · intro h
    simp [projectModelProviders, h]
  · intro h
    refine ⟨?_, fun ha => ?_, fun ha => ?_⟩
    · by_cases ha : truthy env.anthropicApiKey <;>
        simp [projectModelProviders, h, ha]
    · simp [projectModelProviders, h, ha]
    · simp [projectModelProviders, h, ha]

/-- Witness for C4: with both native fields set and both legacy entries
previously persisted, the projection removes the legacy entries and writes
the native entry. -/
theorem provider_selection_precedence_witness :
    (projectModelProviders sampleNativeNodeEnv
        sampleLegacyProviders).providers.anthropic = false ∧
    (projectModelProviders sampleNativeNodeEnv
        sampleLegacyProviders).providers.openai = false ∧
    ((projectModelProviders sampleNativeNodeEnv
        sampleLegacyProviders).providers.cloudflareAiGateway).isSome = true :=
  (provider_selection_precedence sampleNativeNodeEnv sampleLegacyProviders).1
    (by decide)

/-- C5: for protected requests (path not under `/debug`, dev mode off) with
at least one required setting missing, the middleware responds 503 with the
HTML error page or the JSON `error`/`message`/`missing[]` body, chosen by
whether `Accept` includes `text/html`; the check is bypassed for `/debug`
paths and when `DEV_MODE` is `true`. -/
theorem env_validation_middleware_spec (env : WorkerEnv) (path : String)
    (accept : Option String) :
    (path.startsWith "/debug" = true →
      envValidationMiddleware env path accept = .pass) ∧
    (env.devMode = some "true" →
      envValidationMiddleware env path accept = .pass) ∧
    (path.startsWith "/debug" = false → env.devMode ≠ some "true" →
      validateRequiredEnv env ≠ [] →
      envValidationMiddleware env path accept =
        (if acceptsHtmlHeader accept then
          MiddlewareResult.respond 503
            (.htmlErrorPage (String.intercalate ", " (validateRequiredEnv env)))
        else
          MiddlewareResult.respond 503
            (.jsonError "Configuration error"
              "Required environment variables are not configured"
              (validateRequiredEnv env)
              "Set these using: wrangler secret put <VARIABLE_NAME>"))) := by
  refine ⟨fun h => ?_, fun h => ?_, fun h1 h2 h3 => ?_⟩
  · simp [envValidationMiddleware, h]
  · simp [envValidationMiddleware, h]
  · have hdm : (env.devMode == some "true") = false := by
      cases e : env.devMode == some "true"
      · rfl
      · exact absurd (by simpa using e) h2
    have hne : (validateRequiredEnv env).isEmpty = false := by
      cases e : (validateRequiredEnv env).isEmpty
      · rfl
      · exact absurd (by simpa [List.isEmpty_iff] using e) h3
    by_cases hh : acceptsHtmlHeader accept = true <;>
      simp [envValidationMiddleware, h1, hdm, hne, hh]

/-- Witness for C5: with nothing configured, a plain API request to `/`
receives the 503 JSON error carrying the exact missing list. -/
theorem env_validation_middleware_spec_witness :
    envValidationMiddleware emptyWorkerEnv "/" none =
      .respond 503 (.jsonError "Configuration error"
        "Required environment variables are not configured"
        (validateRequiredEnv emptyWorkerEnv)
        "Set these using: wrangler secret put <VARIABLE_NAME>") := by
  have h := (env_validation_middleware_spec emptyWorkerEnv "/" none).2.2
    (by decide) (by decide) (by decide)
  simpa using h

/-- C6: when the gateway is not ready, the request is not a WebSocket
upgrade and the `Accept` header includes `text/html`, the handler responds
with the placeholder loading page without awaiting gateway startup, and
schedules exactly one background start whose failure is logged rather than
surfaced. -/
theorem loading_page_branch (env : WorkerEnv)
    (procStatus upgradeHeader acceptHeader : Option String)
    (startResult : Except String Unit)
    (hready : gatewayReadyProbe procStatus = false)
    (hws : isWebSocketUpgrade upgradeHeader = false)
    (hhtml : acceptsHtmlHeader acceptHeader = true) :
    catchAllHandler env procStatus upgradeHeader acceptHeader startResult =
      [.scheduleBackgroundStart true, .respond .loadingPage] ∧
    (catchAllHandler env procStatus upgradeHeader acceptHeader
        startResult).count (.scheduleBackgroundStart true) = 1 ∧
    HandlerAction.awaitGatewayStart ∉
      catchAllHandler env procStatus upgradeHeader acceptHeader startResult := by
  have hmain :
      catchAllHandler env procStatus upgradeHeader acceptHeader startResult =
        [.scheduleBackgroundStart true, .respond .loadingPage] := by
    simp [catchAllHandler, hready, hws, hhtml]
  refine ⟨hmain, ?_, ?_⟩
  · rw [hmain]; decide
  · rw [hmain]; decide

/-- Witness for C6: an HTML browser request with no gateway process found
gets the loading page and one background start. -/
theorem loading_page_branch_witness :
    catchAllHandler emptyWorkerEnv none none (some "text/html") (.ok ()) =
      [.scheduleBackgroundStart true, .respond .loadingPage] :=
  (loading_page_branch emptyWorkerEnv none none (some "text/html") (.ok ())
    (by decide) (by decide) (by decide)).1

/-- C9: the forwarded response keeps the gateway response's status code,
status text and body, and its headers are the gateway's headers with the two
debug headers `X-Worker-Debug` and `X-Debug-Path` added (stated for gateway
responses that do not already carry headers of those names, where `set`
coincides with appending). -/
theorem proxy_forward_verbatim (g : HttpResponse) (path : String)
    (h1 : ∀ p ∈ g.headers, headerNameEq p.1 "X-Worker-Debug" = false)
    (h2 : ∀ p ∈ g.headers, headerNameEq p.1 "X-Debug-Path" = false) :
    (proxyForward g path).status = g.status ∧
    (proxyForward g path).statusText = g.statusText ∧
    (proxyForward g path).body = g.body ∧
    (proxyForward g path).headers =
      g.headers ++
        [("X-Worker-Debug", "proxy-to-moltbot"), ("X-Debug-Path", path)] := by
  refine ⟨rfl, rfl, rfl, ?_⟩
  have hany1 :
      (g.headers.any fun p => headerNameEq p.1 "X-Worker-Debug") = false := by
    rw [List.any_eq_false]
    intro p hp
    simp [h1 p hp]
  have hstep1 : headerSet g.headers "X-Worker-Debug" "proxy-to-moltbot" =
      g.headers ++ [("X-Worker-Debug", "proxy-to-moltbot")] := by
    simp [headerSet, hany1]
  have hany2 :
      ((g.headers ++ [("X-Worker-Debug", "proxy-to-moltbot")]).any
        fun p => headerNameEq p.1 "X-Debug-Path") = false := by
    rw [List.any_eq_false]
    intro p hp
    rcases List.mem_append.mp hp with hp | hp
    · simp [h2 p hp]
    · simp only [List.mem_singleton] at hp
      subst hp
      decide
  show headerSet (headerSet g.headers "X-Worker-Debug" "proxy-to-moltbot")
      "X-Debug-Path" path =
    g.headers ++ [("X-Worker-Debug", "proxy-to-moltbot"), ("X-Debug-Path", path)]
  rw [hstep1]
  simp [headerSet, hany2]

/-- Witness for C9: a concrete 200 response with one content-type header is
forwarded with status, text and body intact and both debug headers
appended. -/
theorem proxy_forward_verbatim_witness :
    (proxyForward ⟨200, "OK", [("content-type", "text/html")], [104, 105]⟩
        "/chat").status =
      (⟨200, "OK", [("content-type", "text/html")], [104, 105]⟩ :
        HttpResponse).status ∧
    (proxyForward ⟨200, "OK", [("content-type", "text/html")], [104, 105]⟩
        "/chat").statusText =
      (⟨200, "OK", [("content-type", "text/html")], [104, 105]⟩ :
        HttpResponse).statusText ∧
    (proxyForward ⟨200, "OK", [("content-type", "text/html")], [104, 105]⟩
        "/chat").body =
      (⟨200, "OK", [("content-type", "text/html")], [104, 105]⟩ :
        HttpResponse).body ∧
    (proxyForward ⟨200, "OK", [("content-type", "text/html")], [104, 105]⟩
        "/chat").headers =
      [("content-type", "text/html")] ++
        [("X-Worker-Debug", "proxy-to-moltbot"), ("X-Debug-Path", "/chat")] :=
  proxy_forward_verbatim
    ⟨200, "OK", [("content-type", "text/html")], [104, 105]⟩ "/chat"
    (by decide) (by decide)
/-- The native section never writes the `ANTHROPIC_API_KEY` entry. -/
theorem applyNativeGatewayVars_anthropicApiKey (env : MoltbotEnvBindings)
    (e : ContainerEnvVars) :
    (applyNativeGatewayVars env e).anthropicApiKey = e.anthropicApiKey := by
  simp [applyNativeGatewayVars, apply_ite ContainerEnvVars.anthropicApiKey]

/-- The native section never writes the `OPENAI_API_KEY` entry. -/
theorem applyNativeGatewayVars_openaiApiKey (env : MoltbotEnvBindings)
    (e : ContainerEnvVars) :
    (applyNativeGatewayVars env e).openaiApiKey = e.openaiApiKey := by
  simp [applyNativeGatewayVars, apply_ite ContainerEnvVars.openaiApiKey]

/-- The native section never writes the `ANTHROPIC_BASE_URL` entry. -/
theorem applyNativeGatewayVars_anthropicBaseUrl (env : MoltbotEnvBindings)
    (e : ContainerEnvVars) :
    (applyNativeGatewayVars env e).anthropicBaseUrl = e.anthropicBaseUrl := by
  simp [applyNativeGatewayVars, apply_ite ContainerEnvVars.anthropicBaseUrl]

/-- The legacy section writes `ANTHROPIC_API_KEY` exactly for a truthy
normalized non-OpenAI URL with a truthy gateway key. -/
theorem applyLegacyGatewayVars_anthropicApiKey (env : MoltbotEnvBindings)
    (e : ContainerEnvVars) :
    (applyLegacyGatewayVars env e).anthropicApiKey =
      if truthy (legacyNormalizedBaseUrl env) && !legacyIsOpenAIGateway env &&
          truthy env.aiGatewayApiKey then env.aiGatewayApiKey
      else e.anthropicApiKey := by
  by_cases hb : truthy (legacyNormalizedBaseUrl env) <;>
    by_cases ho : legacyIsOpenAIGateway env <;>
      by_cases hk : truthy env.aiGatewayApiKey <;>
        simp [applyLegacyGatewayVars, hb, ho, hk]

/-- The legacy section writes `OPENAI_API_KEY` exactly for a truthy
normalized OpenAI-style URL with a truthy gateway key. -/
theorem applyLegacyGatewayVars_openaiApiKey (env : MoltbotEnvBindings)
    (e : ContainerEnvVars) :
    (applyLegacyGatewayVars env e).openaiApiKey =
      if truthy (legacyNormalizedBaseUrl env) && legacyIsOpenAIGateway env &&
          truthy env.aiGatewayApiKey then env.aiGatewayApiKey
      else e.openaiApiKey := by
  by_cases hb : truthy (legacyNormalizedBaseUrl env) <;>
    by_cases ho : legacyIsOpenAIGateway env <;>
      by_cases hk : truthy env.aiGatewayApiKey <;>
        simp [applyLegacyGatewayVars, hb, ho, hk]

/-- The legacy section writes `ANTHROPIC_BASE_URL` exactly for a truthy
normalized non-OpenAI URL. -/
theorem applyLegacyGatewayVars_anthropicBaseUrl (env : MoltbotEnvBindings)
    (e : ContainerEnvVars) :
    (applyLegacyGatewayVars env e).anthropicBaseUrl =
      if truthy (legacyNormalizedBaseUrl env) && !legacyIsOpenAIGateway env then
        legacyNormalizedBaseUrl env
      else e.anthropicBaseUrl := by
  by_cases hb : truthy (legacyNormalizedBaseUrl env) <;>
    by_cases ho : legacyIsOpenAIGateway env <;>
      by_cases hk : truthy env.aiGatewayApiKey <;>
        simp [applyLegacyGatewayVars, hb, ho, hk]

/-- The direct section copies `ANTHROPIC_API_KEY` only into an unset
entry. -/
theorem applyDirectProviderVars_anthropicApiKey (env : MoltbotEnvBindings)
    (e : ContainerEnvVars) :
    (applyDirectProviderVars env e).anthropicApiKey =
      if !truthy e.anthropicApiKey && truthy env.anthropicApiKey then
        env.anthropicApiKey
      else e.anthropicApiKey := by
  by_cases h1 : (!truthy e.anthropicApiKey && truthy env.anthropicApiKey) = true <;>
    simp [applyDirectProviderVars, h1,
      apply_ite ContainerEnvVars.anthropicApiKey]

/-- The direct section copies `OPENAI_API_KEY` only into an unset entry. -/
theorem applyDirectProviderVars_openaiApiKey (env : MoltbotEnvBindings)
    (e : ContainerEnvVars) :
    (applyDirectProviderVars env e).openaiApiKey =
      if !truthy e.openaiApiKey && truthy env.openaiApiKey then
        env.openaiApiKey
      else e.openaiApiKey := by
  by_cases h1 : (!truthy e.anthropicApiKey && truthy env.anthropicApiKey) = true <;>
    by_cases h2 : (!truthy e.openaiApiKey && truthy env.openaiApiKey) = true <;>
      simp [applyDirectProviderVars, h1, h2,
        apply_ite ContainerEnvVars.openaiApiKey]

/-- The direct section copies `ANTHROPIC_BASE_URL` only into an unset
entry. -/
theorem applyDirectProviderVars_anthropicBaseUrl (env : MoltbotEnvBindings)
    (e : ContainerEnvVars) :
    (applyDirectProviderVars env e).anthropicBaseUrl =
      if truthy env.anthropicBaseUrl && !truthy e.anthropicBaseUrl then
        env.anthropicBaseUrl
      else e.anthropicBaseUrl := by
  by_cases h1 : (!truthy e.anthropicApiKey && truthy env.anthropicApiKey) = true <;>
    by_cases h2 : (!truthy e.openaiApiKey && truthy env.openaiApiKey) = true <;>
      by_cases h3 : (truthy env.anthropicBaseUrl && !truthy e.anthropicBaseUrl) = true <;>
        simp [applyDirectProviderVars, h1, h2, h3,
          apply_ite ContainerEnvVars.anthropicBaseUrl]

/-- The gateway/channel section never writes the `ANTHROPIC_API_KEY`
entry. -/
theorem applyGatewayChannelVars_anthropicApiKey (env : MoltbotEnvBindings)
    (e : ContainerEnvVars) :
    (applyGatewayChannelVars env e).anthropicApiKey = e.anthropicApiKey := by
  simp [applyGatewayChannelVars, apply_ite ContainerEnvVars.anthropicApiKey]

/-- The gateway/channel section never writes the `OPENAI_API_KEY` entry. -/
theorem applyGatewayChannelVars_openaiApiKey (env : MoltbotEnvBindings)
    (e : ContainerEnvVars) :
    (applyGatewayChannelVars env e).openaiApiKey = e.openaiApiKey := by
  simp [applyGatewayChannelVars, apply_ite ContainerEnvVars.openaiApiKey]

/-- The gateway/channel section never writes the `ANTHROPIC_BASE_URL`
entry. -/
theorem applyGatewayChannelVars_anthropicBaseUrl (env : MoltbotEnvBindings)
    (e : ContainerEnvVars) :
    (applyGatewayChannelVars env e).anthropicBaseUrl = e.anthropicBaseUrl := by
  simp [applyGatewayChannelVars, apply_ite ContainerEnvVars.anthropicBaseUrl]

/-- Closed form of the `ANTHROPIC_API_KEY` output of `buildEnvVars`. -/
theorem buildEnvVars_anthropicApiKey (env : MoltbotEnvBindings) :
    (buildEnvVars env).anthropicApiKey =
      if truthy (legacyNormalizedBaseUrl env) && !legacyIsOpenAIGateway env &&
          truthy env.aiGatewayApiKey then env.aiGatewayApiKey
      else if truthy env.anthropicApiKey then env.anthropicApiKey
      else none := by
  unfold buildEnvVars
  rw [applyGatewayChannelVars_anthropicApiKey,
    applyDirectProviderVars_anthropicApiKey,
    applyLegacyGatewayVars_anthropicApiKey,
    applyNativeGatewayVars_anthropicApiKey]
  by_cases hb : truthy (legacyNormalizedBaseUrl env) <;>
    by_cases ho : legacyIsOpenAIGateway env <;>
      by_cases hk : truthy env.aiGatewayApiKey <;>
        by_cases ha : truthy env.anthropicApiKey <;>
          simp [hb, ho, hk, ha, truthy_none]

/-- Closed form of the `OPENAI_API_KEY` output of `buildEnvVars`. -/
theorem buildEnvVars_openaiApiKey (env : MoltbotEnvBindings) :
    (buildEnvVars env).openaiApiKey =
      if truthy (legacyNormalizedBaseUrl env) && legacyIsOpenAIGateway env &&
          truthy env.aiGatewayApiKey then env.aiGatewayApiKey
      else if truthy env.openaiApiKey then env.openaiApiKey
      else none := by
  unfold buildEnvVars
  rw [applyGatewayChannelVars_openaiApiKey,
    applyDirectProviderVars_openaiApiKey,
    applyLegacyGatewayVars_openaiApiKey,
    applyNativeGatewayVars_openaiApiKey]
  by_cases hb : truthy (legacyNormalizedBaseUrl env) <;>
    by_cases ho : legacyIsOpenAIGateway env <;>
      by_cases hk : truthy env.aiGatewayApiKey <;>
        by_cases ha : truthy env.openaiApiKey <;>
          simp [hb, ho, hk, ha, truthy_none]

/-- Closed form of the `ANTHROPIC_BASE_URL` output of `buildEnvVars`. -/
theorem buildEnvVars_anthropicBaseUrl (env : MoltbotEnvBindings) :
    (buildEnvVars env).anthropicBaseUrl =
      if truthy (legacyNormalizedBaseUrl env) && !legacyIsOpenAIGateway env then
        legacyNormalizedBaseUrl env
      else if truthy env.anthropicBaseUrl then env.anthropicBaseUrl
      else none := by
  unfold buildEnvVars
  rw [applyGatewayChannelVars_anthropicBaseUrl,
    applyDirectProviderVars_anthropicBaseUrl,
    applyLegacyGatewayVars_anthropicBaseUrl,
    applyNativeGatewayVars_anthropicBaseUrl]
  by_cases hb : truthy (legacyNormalizedBaseUrl env) <;>
    by_cases ho : legacyIsOpenAIGateway env <;>
      by_cases ha : truthy env.anthropicBaseUrl <;>
        simp [hb, ho, ha, truthy_none]

/-- Counterexample to C10 as stated: with `AI_GATEWAY_BASE_URL` set to the
truthy string `/` together with `AI_GATEWAY_API_KEY`, normalization strips
the slash to the empty string, the legacy mapping is skipped, and the output
`ANTHROPIC_API_KEY` is the direct key rather than the gateway key. -/
theorem buildEnvVars_legacy_precedence_cex :
    truthy slashBaseUrlBindings.aiGatewayBaseUrl = true ∧
    truthy slashBaseUrlBindings.aiGatewayApiKey = true ∧
    (buildEnvVars slashBaseUrlBindings).anthropicApiKey ≠
      slashBaseUrlBindings.aiGatewayApiKey ∧
    (buildEnvVars slashBaseUrlBindings).openaiApiKey ≠
      slashBaseUrlBindings.aiGatewayApiKey := by decide

/-- C10 amended: the legacy override is keyed to the NORMALIZED base URL
(trailing slashes stripped) being non-empty. Whenever the normalized
`AI_GATEWAY_BASE_URL` is truthy together with `AI_GATEWAY_API_KEY`, the
output `OPENAI_API_KEY` (for an `/openai` or `/compat` URL) or otherwise
`ANTHROPIC_API_KEY` equals `AI_GATEWAY_API_KEY` even when direct keys are
set; and the direct keys and `ANTHROPIC_BASE_URL` are copied to the output
exactly when the legacy path left those entries unset. -/
theorem buildEnvVars_legacy_precedence (env : MoltbotEnvBindings) :
    (truthy (legacyNormalizedBaseUrl env) = true →
     truthy env.aiGatewayApiKey = true →
      (legacyIsOpenAIGateway env = true →
        (buildEnvVars env).openaiApiKey = env.aiGatewayApiKey) ∧
      (legacyIsOpenAIGateway env = false →
        (buildEnvVars env).anthropicApiKey = env.aiGatewayApiKey)) ∧
    ((truthy (legacyNormalizedBaseUrl env) && !legacyIsOpenAIGateway env &&
        truthy env.aiGatewayApiKey) = false →
      (buildEnvVars env).anthropicApiKey =
        (if truthy env.anthropicApiKey then env.anthropicApiKey else none)) ∧
    ((truthy (legacyNormalizedBaseUrl env) && legacyIsOpenAIGateway env &&
        truthy env.aiGatewayApiKey) = false →
      (buildEnvVars env).openaiApiKey =
        (if truthy env.openaiApiKey then env.openaiApiKey else none)) ∧
    ((truthy (legacyNormalizedBaseUrl env) && !legacyIsOpenAIGateway env) = false →
      (buildEnvVars env).anthropicBaseUrl =
        (if truthy env.anthropicBaseUrl then env.anthropicBaseUrl else none)) := by
  refine ⟨fun hb hk => ⟨fun ho => ?_, fun ho => ?_⟩, fun hc => ?_, fun hc => ?_,
    fun hc => ?_⟩
  · rw [buildEnvVars_openaiApiKey]
    simp [hb, hk, ho]
  · rw [buildEnvVars_anthropicApiKey]
    simp [hb, hk, ho]
  · rw [buildEnvVars_anthropicApiKey, hc]
    simp
  · rw [buildEnvVars_openaiApiKey, hc]
    simp
  · rw [buildEnvVars_anthropicBaseUrl, hc]
    simp

/-- Witness for the amended C10: a `/compat` URL with a gateway key routes
the gateway key to `OPENAI_API_KEY` even though a direct OpenAI key is also
set. -/
theorem buildEnvVars_legacy_precedence_witness :
    (buildEnvVars compatBaseUrlBindings).openaiApiKey =
      compatBaseUrlBindings.aiGatewayApiKey :=
  ((buildEnvVars_legacy_precedence compatBaseUrlBindings).1
    (by decide) (by decide)).1 (by decide)
/-- Each relay step keeps the two legs' closed-ness in agreement. -/
theorem relayStep_preserves_agreement (s : RelayState) (e : RelayEvent)
    (h : s.caller.isClosed = s.gateway.isClosed) :
    (relayStep s e).caller.isClosed = (relayStep s e).gateway.isClosed := by
  cases e <;> cases hc : s.caller <;> cases hg : s.gateway <;>
    simp_all [relayStep, closeLeg, LegState.isClosed]

/-- C7: in the relayed session, every reachable state has the two legs
agree on closed-ness (no half-open state); from a state whose peer leg is
still active, a close event on one leg closes the other leg with the
originating code and reason, and an error event on one leg closes the other
leg with code 1011 and the corresponding fixed reason. -/
theorem relay_close_propagation :
    (∀ s, RelayReachable s → s.caller.isClosed = s.gateway.isClosed) ∧
    (∀ s, RelayReachable s → s.gateway = .active → ∀ code reason,
      (relayStep s (.callerClose code reason)).gateway = .closed code reason) ∧
    (∀ s, RelayReachable s → s.caller = .active → ∀ code reason,
      (relayStep s (.gatewayClose code reason)).caller = .closed code reason) ∧
    (∀ s, RelayReachable s → s.gateway = .active →
      (relayStep s .callerError).gateway = .closed 1011 "Client error") ∧
    (∀ s, RelayReachable s → s.caller = .active →
      (relayStep s .gatewayError).caller = .closed 1011 "Container error") := by
  refine ⟨?_, ?_, ?_, ?_, ?_⟩
  · intro s h
    induction h with
    | init => rfl
    | step s e hs ih => exact relayStep_preserves_agreement s e ih
  · intro s _ hg code reason
    simp [relayStep, hg, closeLeg]
  · intro s _ hc code reason
    simp [relayStep, hc, closeLeg]
  · intro s _ hg
    simp [relayStep, hg, closeLeg]
  · intro s _ hc
    simp [relayStep, hc, closeLeg]

/-- Witness for C7: closing the caller leg of a fresh relay with code 1000
closes the gateway leg with code 1000 and the same reason. -/
theorem relay_close_propagation_witness :
    (relayStep relayInit (.callerClose 1000 "bye")).gateway =
      .closed 1000 "bye" :=
  relay_close_propagation.2.1 relayInit .init rfl 1000 "bye"
/-- Counterexample to C3 as stated: the text frame with a space after the
colon parses as JSON whose top-level `error` string is `boom` (matching
neither rewrite pattern, so by the claim it should be forwarded
byte-identically), yet the handler re-serializes it compactly and the
delivered frame differs from the original bytes. -/
theorem relay_byte_identical_cex :
    jsonParse "\x7b\"error\": \"boom\"\x7d" =
      some (.jsObj [("error", .jsStr "boom")]) ∧
    transformErrorMessage "boom" "example.com" = "boom" ∧
    relayGatewayFrame "example.com" (.text "\x7b\"error\": \"boom\"\x7d") ≠
      .text "\x7b\"error\": \"boom\"\x7d" :=
  ⟨by rfl, by rfl, by decide⟩

/-- C3 amended: binary frames, text frames without the substring
`"error"`, unparseable text frames, and JSON frames without a non-empty
top-level string `error` field are forwarded byte-identically; a text frame
containing `"error"` that parses to an object with a non-empty string
`error` field is re-serialized (compact `JSON.stringify`, not necessarily
the original bytes) with exactly the `error` field transformed: messages
containing `gateway token missing` or `gateway token mismatch` become the
`https://{host}?token={REPLACE_WITH_YOUR_TOKEN}` guidance, messages
containing `pairing required` become the `https://{host}/_admin/` guidance,
and all other messages are kept verbatim. -/
theorem relay_frame_transformation (host : String) :
    (∀ bytes, relayGatewayFrame host (.binary bytes) = .binary bytes) ∧
    (∀ data, jsIncludes data "\"error\"" = false →
      relayGatewayFrame host (.text data) = .text data) ∧
    (∀ data, jsonParse data = none →
      relayGatewayFrame host (.text data) = .text data) ∧
    (∀ data parsed, jsonParse data = some parsed →
      errorStringField parsed = none →
      relayGatewayFrame host (.text data) = .text data) ∧
    (∀ data parsed e, jsIncludes data "\"error\"" = true →
      jsonParse data = some parsed → errorStringField parsed = some e →
      relayGatewayFrame host (.text data) =
        .text (stringifyJson
          (setErrorField parsed (transformErrorMessage e host)))) ∧
    (∀ e, (jsIncludes e "gateway token missing" ||
        jsIncludes e "gateway token mismatch") = true →
      transformErrorMessage e host =
        "Invalid or missing token. Visit https://" ++ host ++
          "?token=\x7bREPLACE_WITH_YOUR_TOKEN\x7d") ∧
    (∀ e, (jsIncludes e "gateway token missing" ||
        jsIncludes e "gateway token mismatch") = false →
      jsIncludes e "pairing required" = true →
      transformErrorMessage e host =
        "Pairing required. Visit https://" ++ host ++ "/_admin/") ∧
    (∀ e, (jsIncludes e "gateway token missing" ||
        jsIncludes e "gateway token mismatch") = false →
      jsIncludes e "pairing required" = false →
      transformErrorMessage e host = e) := by
  refine ⟨fun bytes => rfl, fun data h => ?_, fun data hp => ?_,
    fun data parsed hp he => ?_, fun data parsed e h hp he => ?_,
    fun e h => ?_, fun e h1 h2 => ?_, fun e h1 h2 => ?_⟩
  · simp [relayGatewayFrame, h]
  · by_cases h : jsIncludes data "\"error\"" = true <;>
      simp [relayGatewayFrame, h, hp]
  · by_cases h : jsIncludes data "\"error\"" = true <;>
      simp [relayGatewayFrame, h, hp, he]
  · simp [relayGatewayFrame, h, hp, he]
  · simp [transformErrorMessage, h]
  · simp only [Bool.or_eq_false_iff] at h1
    simp [transformErrorMessage, h1.1, h1.2, h2]
  · simp only [Bool.or_eq_false_iff] at h1
    simp [transformErrorMessage, h1.1, h1.2, h2]

/-- Witness for the amended C3: a token-mismatch error frame is rewritten to
the frame carrying the token-URL guidance. -/
theorem relay_frame_transformation_witness :
    relayGatewayFrame "h.test"
        (.text "\x7b\"error\":\"gateway token mismatch\"\x7d") =
      .text (stringifyJson (setErrorField
        (.jsObj [("error", .jsStr "gateway token mismatch")])
        (transformErrorMessage "gateway token mismatch" "h.test"))) ∧
    transformErrorMessage "gateway token mismatch" "h.test" =
      "Invalid or missing token. Visit https://" ++ "h.test" ++
        "?token=\x7bREPLACE_WITH_YOUR_TOKEN\x7d" := by
  constructor
  · exact (relay_frame_transformation "h.test").2.2.2.2.1
      "\x7b\"error\":\"gateway token mismatch\"\x7d"
      (.jsObj [("error", .jsStr "gateway token mismatch")])
      "gateway token mismatch" (by rfl) (by rfl) (by rfl)
  · exact (relay_frame_transformation "h.test").2.2.2.2.2.1
      "gateway token mismatch" (by rfl)
/-- Inductive invariant of a single-flight episode: caller counts sum to
`n`; nobody is done before resolution; the guard is held only before
resolution; after resolution nobody is still waiting; no spawn has happened
while the guard is free before resolution, and exactly one spawn has
happened once the guard is held or the episode resolved. -/
theorem singleFlight_inv (n : Nat) (s : SingleFlightState)
    (h : SingleFlightReachable n s) :
    s.nStart + s.nWaiting + s.nDone = n ∧
    (s.outcome = none → s.nDone = 0) ∧
    (s.guard = true → s.outcome = none) ∧
    (s.outcome ≠ none → s.nWaiting = 0) ∧
    (s.guard = false → s.outcome = none → s.spawns = 0) ∧
    (s.guard = true ∨ s.outcome ≠ none → s.spawns = 1) := by
  induction h with
  | init =>
    refine ⟨rfl, fun _ => rfl, fun hg => by simp [singleFlightInit] at hg,
      fun ho => by simp [singleFlightInit] at ho, fun _ _ => rfl,
      fun hor => ?_⟩
    rcases hor with hg | ho
    · simp [singleFlightInit] at hg
    · simp [singleFlightInit] at ho
  | step s t hs hstep ih =>
    obtain ⟨hsum, hdone, hguard, hwait, hsp0, hsp1⟩ := ih
    cases hstep with
    | enterSpawn hn hg ho =>
      refine ⟨by simp; omega, fun _ => by simp [hdone ho], fun _ => by simp [ho],
        fun hne => by simp [ho] at hne, fun hgf => by simp at hgf,
        fun _ => by simp [hsp0 hg ho]⟩
    | enterAwait hn hg =>
      have ho := hguard hg
      refine ⟨by simp; omega, fun _ => by simp [hdone ho], fun _ => by simp [ho],
        fun hne => by simp [ho] at hne, fun hgf => by simp [hg] at hgf,
        fun _ => by simp [hsp1 (Or.inl hg)]⟩
    | resolve b hg ho =>
      refine ⟨by simp; omega, fun hnone => by simp at hnone,
        fun hgt => by simp at hgt, fun _ => by simp,
        fun _ hnone => by simp at hnone,
        fun _ => by simp [hsp1 (Or.inl hg)]⟩

/-- C1 (spec-modelled): in every interleaving of a single-flight start
episode in which all `n` concurrent callers that observed "not running"
have entered and the in-flight start has resolved with outcome `b`, exactly
one underlying spawn was issued, and all `n` callers completed having
observed that same outcome `b`. -/
theorem single_flight_start (n : Nat) (s : SingleFlightState) (b : Bool)
    (hreach : SingleFlightReachable n s)
    (hentered : s.nStart = 0) (hout : s.outcome = some b) :
    s.spawns = 1 ∧ s.nDone = n := by
  obtain ⟨hsum, -, -, hwait, -, hsp1⟩ := singleFlight_inv n s hreach
  have hne : s.outcome ≠ none := by simp [hout]
  refine ⟨hsp1 (Or.inr hne), ?_⟩
  have hw := hwait hne
  omega

/-- Witness for C1: the episode with two callers, the second entering while
the first's spawn is in flight, ends after resolution with one spawn and
both callers done with the shared outcome. -/
theorem single_flight_start_witness :
    ({ nStart := 0, nWaiting := 0, nDone := 2, guard := false, spawns := 1,
       outcome := some true } : SingleFlightState).spawns = 1 ∧
    ({ nStart := 0, nWaiting := 0, nDone := 2, guard := false, spawns := 1,
       outcome := some true } : SingleFlightState).nDone = 2 := by
  have h0 : SingleFlightReachable 2 (singleFlightInit 2) :=
    SingleFlightReachable.init
  have h1 : SingleFlightReachable 2
      { nStart := 1, nWaiting := 1, nDone := 0, guard := true, spawns := 1,
        outcome := none } :=
    SingleFlightReachable.step _ _ h0
      (SingleFlightStep.enterSpawn _ (by decide) rfl rfl)
  have h2 : SingleFlightReachable 2
      { nStart := 0, nWaiting := 2, nDone := 0, guard := true, spawns := 1,
        outcome := none } :=
    SingleFlightReachable.step _ _ h1
      (SingleFlightStep.enterAwait _ (by decide) rfl)
  have h3 : SingleFlightReachable 2
      { nStart := 0, nWaiting := 0, nDone := 2, guard := false, spawns := 1,
        outcome := some true } :=
    SingleFlightReachable.step _ _ h2
      (SingleFlightStep.resolve _ true rfl rfl)
  exact single_flight_start 2 _ true h3 rfl rfl

end Moltworker
